import Mathlib

/-!
Verification of the REST views of `invenio_archivematica`
(`invenio_archivematica/views/rest.py`): the status-reconciliation engine
(`Archive.get`), the write path (`Archive.patch`), the retrieval proxy
(`ArchiveDownload.get`) and the decorator guard chains, shallowly embedded
as executable Lean functions over an explicit record state.
-/

namespace InvenioArchivematica

/-- The local archival status enumeration (`ArchiveStatus` in
`invenio_archivematica.models`). The spec lists exactly these six states. -/
inductive ArchiveStatus
  | NEW
  | WAITING
  | PROCESSING_TRANSFER
  | PROCESSING_AIP
  | REGISTERED
  | FAILED
deriving DecidableEq, Repr

/-- The persisted Archive Record: `sip_id`, `accession_id`,
`archivematica_id`, `status`, and the `sip` ownership link (modelled by an
opaque identifier, since the views only pass it through to the dispatcher). -/
structure ArchiveRecord where
  sip_id : String
  accession_id : String
  archivematica_id : String
  status : ArchiveStatus
  sip : String
deriving DecidableEq, Repr

/-- The JSON snapshot produced by `Archive._to_json`: the four serialized
fields of the record. -/
structure ArchiveJson where
  sip_id : String
  status : ArchiveStatus
  accession_id : String
  archivematica_id : String
deriving DecidableEq, Repr

/-- `Archive._to_json`: serialize an archive as a JSON object. -/
def to_json (ark : ArchiveRecord) : ArchiveJson :=
  { sip_id := ark.sip_id
    status := ark.status
    accession_id := ark.accession_id
    archivematica_id := ark.archivematica_id }

/-- Modelled from the spec: the string table of the Status Model conversion
(`status_converter` in `invenio_archivematica.models`, whose source is not
under `src/`). It maps the Archival Service's string vocabulary to the local
enumeration; the flag distinguishes transfer-stage strings from AIP-stage
strings, since the service reuses some values with different meaning in each
stage (the spec names `"complete"` as the transfer-stage completion value). -/
def status_table (s : String) (aip_processing : Bool) : Option ArchiveStatus :=
  if s = "NEW" then some .NEW
  else if s = "WAITING" then some .WAITING
  else if s = "PROCESSING" then
    some (if aip_processing then .PROCESSING_AIP else .PROCESSING_TRANSFER)
  else if s = "COMPLETE" then some .REGISTERED
  else if s = "REGISTERED" then some .REGISTERED
  else if s = "FAILED" then some .FAILED
  else none

/-- The `InvalidStatus` condition signalled by the Status Model on an
unrecognized status string. -/
inductive InvalidStatus
  | invalid
deriving DecidableEq, Repr

/-- Modelled from the spec: `status_converter` from
`invenio_archivematica.models` (not under `src/`). A recognized string maps
to a status; an unrecognized string is rejected (`InvalidStatus`), never
silently defaulted. The empty string (an absent field in the write path,
whose handler tests the result for truthiness) converts to no status at all
rather than raising, matching the handler's `if ark_status` guard. -/
def status_converter (s : String) (aip_processing : Bool) :
    Except InvalidStatus (Option ArchiveStatus) :=
  if s = "" then .ok none
  else
    match status_table s aip_processing with
    | some st => .ok (some st)
    | none => .error .invalid

/-- `validate_status` from `rest.py`: accept only strings the Status Model
converts without raising. -/
def validate_status (status : String) : Bool :=
  match status_converter status false with
  | .ok _ => true
  | .error _ => false

/-- One invocation of the Status Transition Dispatcher:
`change_status_func[status](sip, accession_id, archivematica_id)`,
with the arguments the call site passed. -/
structure DispatchCall where
  status : ArchiveStatus
  sip : String
  accession_id : String
  archivematica_id : String
deriving DecidableEq, Repr

/-- Modelled from the spec: the effect of the Status Transition Dispatcher
(`change_status_func` in `invenio_archivematica.api`, not under `src/`) on
the record: invoking the action for status `S` persists `S` on the matching
Archive Record (plus status-specific side effects outside the record, which
the embedding tracks only as the `DispatchCall` list). -/
def change_status_func (ark : ArchiveRecord) (s : ArchiveStatus) : ArchiveRecord :=
  { ark with status := s }

/-- The dashboard/storage configuration values read from `current_app.config`. -/
structure Config where
  dashboard_url : String
  dashboard_user : String
  dashboard_api_key : String
  storage_url : String
  storage_user : String
  storage_api_key : String
deriving DecidableEq, Repr

/-- The `params` dictionary of credentials sent with an outbound request. -/
structure Credentials where
  username : String
  api_key : String
deriving DecidableEq, Repr

/-- An outbound HTTP request made to the Archival Service. -/
inductive PollRequest
  | transfer (uuid : String) (params : Credentials)
  | ingest (uuid : String) (params : Credentials)
  | file_download (uuid : String) (params : Credentials)
deriving DecidableEq, Repr

/-- The response returned by a poll of the Archival Service:
`ok`/`status_code` from the transport, and the JSON body's `status` and
`sip_uuid` fields. -/
structure PollResponse where
  ok : Bool
  status_code : Nat
  json_status : String
  json_sip_uuid : String
deriving DecidableEq, Repr

/-- The HTTP outcome of `Archive.get`. -/
inductive GetOutcome
  | ok (body : ArchiveJson)
  | errRelay (status_code : Nat)
  | nameError
  | serverError
deriving DecidableEq, Repr

/-- The full observable result of one `Archive.get` call: the HTTP outcome,
the record's final persisted state, the Dispatcher invocations in order, and
the outbound requests actually issued. `nameError` is the uncaught
`UnboundLocalError` raised when the AIP poll reads the local variable
`params` although the transfer branch that assigns it was not taken;
`serverError` is an uncaught conversion failure on a service-reported
status string. -/
structure GetResult where
  outcome : GetOutcome
  record : ArchiveRecord
  dispatches : List DispatchCall
  polls : List PollRequest
deriving DecidableEq, Repr

/-- Lines 206–218 of `rest.py`: the AIP/ingest-status poll shared by the
fall-through from the transfer pivot and by the direct path. `params` is
`none` exactly when the Python local of that name was never assigned in
this call, in which case evaluating `requests.get(url, params=params)`
raises before any request is made. -/
def aip_poll (archive : ArchiveRecord) (params : Option Credentials)
    (aipResp : PollResponse) (dispatches : List DispatchCall)
    (polls : List PollRequest) : GetResult :=
  match params with
  | none => ⟨.nameError, archive, dispatches, polls⟩
  | some p =>
    let polls := polls ++ [.ingest archive.archivematica_id p]
    if aipResp.ok = false then
      ⟨.errRelay aipResp.status_code, archive, dispatches, polls⟩
    else
      match status_converter aipResp.json_status true with
      | .error _ => ⟨.serverError, archive, dispatches, polls⟩
      | .ok none => ⟨.serverError, archive, dispatches, polls⟩
      | .ok (some st) =>
        if st = archive.status then
          ⟨.ok (to_json archive), archive, dispatches, polls⟩
        else
          let ark := change_status_func archive st
          ⟨.ok (to_json ark), ark,
            dispatches ++
              [⟨st, archive.sip, archive.accession_id, archive.archivematica_id⟩],
            polls⟩

/-- `Archive.get` from `rest.py` (the Reconciliation Engine), lines 162–218.
The two poll responses the environment would return are passed as inputs;
`polls` in the result records which of them were actually requested. -/
def archive_get (cfg : Config) (archive : ArchiveRecord) (real_status : Bool)
    (transferResp aipResp : PollResponse) : GetResult :=
  if real_status = false ∨ archive.status = ArchiveStatus.FAILED
      ∨ archive.status = ArchiveStatus.NEW ∨ archive.archivematica_id = "" then
    ⟨.ok (to_json archive), archive, [], []⟩
  else if archive.status = ArchiveStatus.WAITING
      ∨ archive.status = ArchiveStatus.PROCESSING_TRANSFER then
    let params : Credentials := ⟨cfg.dashboard_user, cfg.dashboard_api_key⟩
    let polls : List PollRequest := [.transfer archive.archivematica_id params]
    if transferResp.ok = false then
      ⟨.errRelay transferResp.status_code, archive, [], polls⟩
    else
      match status_converter transferResp.json_status false with
      | .error _ => ⟨.serverError, archive, [], polls⟩
      | .ok none => ⟨.serverError, archive, [], polls⟩
      | .ok (some st) =>
        if st = ArchiveStatus.REGISTERED then
          let ark := change_status_func
            { archive with archivematica_id := transferResp.json_sip_uuid }
            ArchiveStatus.PROCESSING_AIP
          aip_poll ark (some params) aipResp
            [⟨ArchiveStatus.PROCESSING_AIP, ark.sip, ark.accession_id,
              ark.archivematica_id⟩]
            polls
        else if st = archive.status then
          ⟨.ok (to_json archive), archive, [], polls⟩
        else
          let ark := change_status_func archive st
          ⟨.ok (to_json ark), ark,
            [⟨st, archive.sip, archive.accession_id, archive.archivematica_id⟩],
            polls⟩
  else
    aip_poll archive none aipResp [] []

/-- The HTTP outcome of a PATCH request to the archive endpoint.
`validationError` is the client error raised by the argument parser when the
supplied status string fails `validate_status`, before the handler body
runs; `serverError` is an uncaught `InvalidStatus`, unreachable behind the
validation. -/
inductive PatchOutcome
  | validationError
  | ok (body : ArchiveJson)
  | serverError
deriving DecidableEq, Repr

/-- The full observable result of one PATCH call. -/
structure PatchResult where
  outcome : PatchOutcome
  record : ArchiveRecord
  dispatches : List DispatchCall
deriving DecidableEq, Repr

/-- Lines 142–143 of `rest.py`: the write path replaces `archivematica_id`
when a different non-empty one is supplied, leaving it untouched otherwise. -/
def patch_id_update (archive : ArchiveRecord) (archivematica_id : String) :
    ArchiveRecord :=
  if archivematica_id ≠ "" ∧ archivematica_id ≠ archive.archivematica_id then
    { archive with archivematica_id := archivematica_id }
  else archive

/-- `Archive.patch` from `rest.py`, lines 119–149, together with the
argument-parsing validator that guards it: an absent JSON field arrives as
the handler's default `""`; a present `status` is validated with
`validate_status` before the handler body runs. The handler performs the
identifier update of `patch_id_update`, commits, then converts the status
string and dispatches only when the converted status is truthy and differs
from the current one. -/
def archive_patch (archive : ArchiveRecord) (status : String)
    (archivematica_id : String) : PatchResult :=
  if validate_status status = false then
    ⟨.validationError, archive, []⟩
  else
    let ark := patch_id_update archive archivematica_id
    match status_converter status false with
    | .error _ => ⟨.serverError, ark, []⟩
    | .ok none => ⟨.ok (to_json ark), ark, []⟩
    | .ok (some st) =>
      if st = ark.status then
        ⟨.ok (to_json ark), ark, []⟩
      else
        let ark2 := change_status_func ark st
        ⟨.ok (to_json ark2), ark2,
          [⟨st, ark.sip, ark.accession_id, ark.archivematica_id⟩]⟩

/-- The response of the storage download endpoint: transport outcome plus
the relayed headers; `connection_error` models a raised `ConnectionError`. -/
structure DownloadResponse where
  connection_error : Bool
  ok : Bool
  status_code : Nat
  headers : List (String × String)
deriving DecidableEq, Repr

/-- The HTTP outcome of `ArchiveDownload.get`: `preconditionFailed` is the
412 response, `stream` the relayed byte stream with upstream headers,
`errRelay` the upstream's non-success code with empty body, `unreachable`
the 520 response on `ConnectionError`. -/
inductive DownloadOutcome
  | preconditionFailed
  | stream (headers : List (String × String))
  | errRelay (status_code : Nat)
  | unreachable
deriving DecidableEq, Repr

/-- The full observable result of one download call. -/
structure DownloadResult where
  outcome : DownloadOutcome
  polls : List PollRequest
deriving DecidableEq, Repr

/-- `ArchiveDownload.get` from `rest.py`, lines 224–258: fail with 412
before any outbound request unless the archive is `REGISTERED` with a
non-empty identifier; otherwise request the storage download endpoint with
the storage credentials and relay stream, error code, or 520. -/
def archive_download (cfg : Config) (archive : ArchiveRecord)
    (resp : DownloadResponse) : DownloadResult :=
  if ¬ archive.status = ArchiveStatus.REGISTERED ∨ archive.archivematica_id = "" then
    ⟨.preconditionFailed, []⟩
  else
    let params : Credentials := ⟨cfg.storage_user, cfg.storage_api_key⟩
    let polls : List PollRequest := [.file_download archive.archivematica_id params]
    if resp.connection_error then
      ⟨.unreachable, polls⟩
    else if resp.ok then
      ⟨.stream resp.headers, polls⟩
    else
      ⟨.errRelay resp.status_code, polls⟩

/-- One decorator on a view method: API authentication, OAuth scope
requirement, accession-id resolution, or the per-accession permission check
(`check_permission(action)`). -/
inductive Guard
  | api_auth
  | oauth_scope
  | pass_accession
  | permission (action : String)
deriving DecidableEq, Repr

/-- The decorator chain on `Archive.get` (lines 151–154). -/
def archive_get_guards : List Guard :=
  [.api_auth, .oauth_scope, .pass_accession, .permission "archive-read"]

/-- The decorator chain on `Archive.patch` (lines 119–122). -/
def archive_patch_guards : List Guard :=
  [.api_auth, .oauth_scope, .pass_accession, .permission "archive-write"]

/-- The decorator chain on `ArchiveDownload.get` (lines 224–227): the
`check_permission` decorator is commented out in the source. -/
def archive_download_guards : List Guard :=
  [.api_auth, .oauth_scope, .pass_accession]

/-- The authorization context of one request: whether the caller is
authenticated, holds the archive OAuth scope, the accession resolves, and
which per-accession permission actions are granted. -/
structure RequestCtx where
  authed : Bool
  has_scope : Bool
  found : Bool
  granted : String → Bool

/-- The HTTP abort a single guard raises in a context, if any:
`require_api_auth` aborts 401, `require_oauth_scopes` 403,
`pass_accession_id` 404, and `check_permission` aborts with
`http_exception=403` when the per-accession permission is denied. -/
def guard_abort (ctx : RequestCtx) : Guard → Option Nat
  | .api_auth => if ctx.authed then none else some 401
  | .oauth_scope => if ctx.has_scope then none else some 403
  | .pass_accession => if ctx.found then none else some 404
  | .permission a => if ctx.granted a then none else some 403

/-- Run a decorator chain outside-in: the first aborting guard determines
the error response; `none` means control reaches the handler body. -/
def run_guards (ctx : RequestCtx) (gs : List Guard) : Option Nat :=
  gs.findSome? (guard_abort ctx)

/-! ### Concrete example inputs used by witnesses and counterexamples -/

/-- An example configuration. -/
def cfg0 : Config := ⟨"http://dash", "u", "k", "http://store", "su", "sk"⟩

/-- An example cached record awaiting its transfer, identifier `"T1"`. -/
def ark0 : ArchiveRecord := ⟨"s1", "acc1", "T1", .WAITING, "sip1"⟩

/-- An example cached record already in AIP processing, identifier `"A1"`. -/
def arkAip : ArchiveRecord := ⟨"s1", "acc1", "A1", .PROCESSING_AIP, "sip1"⟩

/-- A transfer-poll response reporting completion with package id `"P1"`. -/
def trC : PollResponse := ⟨true, 200, "COMPLETE", "P1"⟩

/-- An AIP-poll response reporting `"PROCESSING"` (AIP-stage conversion:
`PROCESSING_AIP`). -/
def arP : PollResponse := ⟨true, 200, "PROCESSING", ""⟩

/-- An AIP-poll response reporting `"COMPLETE"` (converts to `REGISTERED`). -/
def arC : PollResponse := ⟨true, 200, "COMPLETE", ""⟩

/-- A failed poll response with HTTP status 500. -/
def rsp500 : PollResponse := ⟨false, 500, "", ""⟩

/-! ### Helper lemmas about the reconciliation engine -/

/-- The transfer branch is entered and its poll fails: the upstream code is
relayed with empty body and nothing is mutated or dispatched. -/
lemma archive_get_transfer_fail (cfg : Config) (ark : ArchiveRecord)
    (tr ar : PollResponse)
    (h1 : ark.status = ArchiveStatus.WAITING
      ∨ ark.status = ArchiveStatus.PROCESSING_TRANSFER)
    (h2 : ark.archivematica_id ≠ "")
    (h3 : tr.ok = false) :
    archive_get cfg ark true tr ar =
      ⟨.errRelay tr.status_code, ark, [],
        [.transfer ark.archivematica_id ⟨cfg.dashboard_user, cfg.dashboard_api_key⟩]⟩ := by
  rcases h1 with h1 | h1 <;>
    simp [archive_get, h1, h2, h3]

/-- The transfer branch is entered, its poll succeeds and converts to a
non-`REGISTERED` status equal to the cached one: the record is returned
unchanged with no dispatch. -/
lemma archive_get_transfer_eq (cfg : Config) (ark : ArchiveRecord)
    (tr ar : PollResponse)
    (h1 : ark.status = ArchiveStatus.WAITING
      ∨ ark.status = ArchiveStatus.PROCESSING_TRANSFER)
    (h2 : ark.archivematica_id ≠ "")
    (h3 : tr.ok = true)
    (h4 : status_converter tr.json_status false = .ok (some ark.status)) :
    archive_get cfg ark true tr ar =
      ⟨.ok (to_json ark), ark, [],
        [.transfer ark.archivematica_id ⟨cfg.dashboard_user, cfg.dashboard_api_key⟩]⟩ := by
  rcases h1 with h1 | h1 <;>
    simp [archive_get, h1, h2, h3, h4]

/-- The transfer poll reports completion: the call pivots, replacing the
identifier with the reported `sip_uuid`, dispatching `PROCESSING_AIP`, and
falling through to the AIP poll with the same credentials. -/
lemma archive_get_pivot (cfg : Config) (ark : ArchiveRecord)
    (tr ar : PollResponse)
    (h1 : ark.status = ArchiveStatus.WAITING
      ∨ ark.status = ArchiveStatus.PROCESSING_TRANSFER)
    (h2 : ark.archivematica_id ≠ "")
    (h3 : tr.ok = true)
    (h4 : status_converter tr.json_status false
      = .ok (some ArchiveStatus.REGISTERED)) :
    archive_get cfg ark true tr ar =
      aip_poll
        (change_status_func { ark with archivematica_id := tr.json_sip_uuid }
          ArchiveStatus.PROCESSING_AIP)
        (some ⟨cfg.dashboard_user, cfg.dashboard_api_key⟩) ar
        [⟨ArchiveStatus.PROCESSING_AIP, ark.sip, ark.accession_id,
          tr.json_sip_uuid⟩]
        [.transfer ark.archivematica_id
          ⟨cfg.dashboard_user, cfg.dashboard_api_key⟩] := by
  rcases h1 with h1 | h1 <;>
    simp [archive_get, h1, h2, h3, h4, change_status_func]

/-- The AIP poll with credentials in scope fails: the upstream code is
relayed and the state accumulated so far is left as it is. -/
lemma aip_poll_fail (ark : ArchiveRecord) (p : Credentials) (ar : PollResponse)
    (ds : List DispatchCall) (ps : List PollRequest)
    (h : ar.ok = false) :
    aip_poll ark (some p) ar ds ps =
      ⟨.errRelay ar.status_code, ark, ds,
        ps ++ [.ingest ark.archivematica_id p]⟩ := by
  simp [aip_poll, h]

/-- The AIP poll succeeds and converts to the record's current status: no
dispatch is added and the record is unchanged. -/
lemma aip_poll_eq (ark : ArchiveRecord) (p : Credentials) (ar : PollResponse)
    (ds : List DispatchCall) (ps : List PollRequest)
    (h1 : ar.ok = true)
    (h2 : status_converter ar.json_status true = .ok (some ark.status)) :
    aip_poll ark (some p) ar ds ps =
      ⟨.ok (to_json ark), ark, ds,
        ps ++ [.ingest ark.archivematica_id p]⟩ := by
  simp [aip_poll, h1, h2]

/-- The AIP poll succeeds and converts to a status different from the
record's current one: that status is dispatched and persisted. -/
lemma aip_poll_ne (ark : ArchiveRecord) (p : Credentials) (ar : PollResponse)
    (ds : List DispatchCall) (ps : List PollRequest) (st : ArchiveStatus)
    (h1 : ar.ok = true)
    (h2 : status_converter ar.json_status true = .ok (some st))
    (h3 : st ≠ ark.status) :
    aip_poll ark (some p) ar ds ps =
      ⟨.ok (to_json (change_status_func ark st)), change_status_func ark st,
        ds ++ [⟨st, ark.sip, ark.accession_id, ark.archivematica_id⟩],
        ps ++ [.ingest ark.archivematica_id p]⟩ := by
  simp [aip_poll, h1, h2, h3]

/-! ### Helper lemmas about the write path -/

/-- The dispatcher's effect on the record changes only the status field. -/
lemma change_status_func_status (u : ArchiveRecord) (st : ArchiveStatus) :
    (change_status_func u st).status = st := rfl

/-- The identifier update leaves the status untouched. -/
lemma patch_id_update_status (ark : ArchiveRecord) (amid : String) :
    (patch_id_update ark amid).status = ark.status := by
  unfold patch_id_update
  split <;> rfl

/-- The identifier update is idempotent. -/
lemma patch_id_update_idem (ark : ArchiveRecord) (amid : String) :
    patch_id_update (patch_id_update ark amid) amid = patch_id_update ark amid := by
  unfold patch_id_update
  split_ifs <;> simp_all

/-- A repeated identifier update after a status change is a no-op. -/
lemma patch_id_update_of_change (ark : ArchiveRecord) (st : ArchiveStatus)
    (amid : String) :
    patch_id_update (change_status_func (patch_id_update ark amid) st) amid
      = change_status_func (patch_id_update ark amid) st := by
  unfold patch_id_update change_status_func
  split_ifs <;> simp_all

/-- A PATCH whose status string is rejected by the Status Model fails
validation before the handler body, leaving the record untouched. -/
lemma archive_patch_invalid (ark : ArchiveRecord) (status amid : String)
    (h : status_converter status false = .error .invalid) :
    archive_patch ark status amid = ⟨.validationError, ark, []⟩ := by
  unfold archive_patch validate_status
  rw [h]
  simp

/-- A PATCH without a status string performs only the identifier update. -/
lemma archive_patch_ok_none (ark : ArchiveRecord) (status amid : String)
    (h : status_converter status false = .ok none) :
    archive_patch ark status amid =
      ⟨.ok (to_json (patch_id_update ark amid)), patch_id_update ark amid, []⟩ := by
  unfold archive_patch validate_status
  rw [h]
  simp

/-- A PATCH with a convertible status string performs the identifier update
and then dispatches exactly when the converted status differs from the
(possibly just-updated) record's status. -/
lemma archive_patch_ok_some (ark : ArchiveRecord) (status amid : String)
    (st : ArchiveStatus)
    (h : status_converter status false = .ok (some st)) :
    archive_patch ark status amid =
      if st = (patch_id_update ark amid).status then
        ⟨.ok (to_json (patch_id_update ark amid)), patch_id_update ark amid, []⟩
      else
        ⟨.ok (to_json (change_status_func (patch_id_update ark amid) st)),
          change_status_func (patch_id_update ark amid) st,
          [⟨st, (patch_id_update ark amid).sip,
            (patch_id_update ark amid).accession_id,
            (patch_id_update ark amid).archivematica_id⟩]⟩ := by
  unfold archive_patch validate_status
  rw [h]
  by_cases hst : st = (patch_id_update ark amid).status <;> simp [hst]

/-! ### Claim theorems -/

/-- C5: for every status query where `realStatus` is false, or the cached
status is `FAILED` or `NEW`, or the external identifier is empty, the cached
record is returned unchanged with zero outbound calls to the Archival
Service and no Dispatcher invocation. -/
theorem C5_cheap_path (cfg : Config) (ark : ArchiveRecord) (real_status : Bool)
    (tr ar : PollResponse)
    (h : real_status = false ∨ ark.status = ArchiveStatus.FAILED
      ∨ ark.status = ArchiveStatus.NEW ∨ ark.archivematica_id = "") :
    archive_get cfg ark real_status tr ar = ⟨.ok (to_json ark), ark, [], []⟩ := by
  unfold archive_get
  rw [if_pos h]

/-- Witness for C5: a cached `NEW` record with an empty identifier, queried
with `realStatus = true`, is returned unchanged with no polls and no
dispatches. -/
theorem C5_cheap_path_witness :
    archive_get cfg0 ⟨"s1", "acc1", "", .NEW, "sip1"⟩ true trC arP =
      ⟨.ok (to_json ⟨"s1", "acc1", "", .NEW, "sip1"⟩),
        ⟨"s1", "acc1", "", .NEW, "sip1"⟩, [], []⟩ :=
  C5_cheap_path cfg0 ⟨"s1", "acc1", "", .NEW, "sip1"⟩ true trC arP
    (Or.inr (Or.inr (Or.inr rfl)))

/-- C2: the claim states that a live query on a cached `PROCESSING_AIP`
record polls the AIP/ingest-status endpoint and completes normally. On the
code it does not: the transfer branch that assigns the local `params` is
skipped, so the AIP poll raises `UnboundLocalError` before issuing any
request — here, the concrete call produces the `nameError` outcome with no
poll and no dispatch. -/
theorem C2_params_undefined :
    archive_get cfg0 arkAip true trC arP = ⟨.nameError, arkAip, [], []⟩ := by
  decide

/-- C9: for every download request whose resolved record has a status other
than `REGISTERED` or an empty external identifier, the Retrieval Proxy
fails with the precondition-not-met response (412) and makes no outbound
request. -/
theorem C9_download_precondition (cfg : Config) (ark : ArchiveRecord)
    (resp : DownloadResponse)
    (h : ¬ ark.status = ArchiveStatus.REGISTERED ∨ ark.archivematica_id = "") :
    archive_download cfg ark resp = ⟨.preconditionFailed, []⟩ := by
  unfold archive_download
  rw [if_pos h]

/-- Witness for C9: a cached `WAITING` record with identifier `"T1"` gets
412 and no outbound call. -/
theorem C9_download_precondition_witness :
    archive_download cfg0 ark0 ⟨false, true, 200, []⟩ =
      ⟨.preconditionFailed, []⟩ :=
  C9_download_precondition cfg0 ark0 ⟨false, true, 200, []⟩
    (Or.inl (by decide))

/-- C6: every PATCH whose status string the Status Model rejects is refused
with a validation (client) error before any mutation: the record is
unmodified and nothing is dispatched. -/
theorem C6_invalid_status_rejected (ark : ArchiveRecord) (status amid : String)
    (h : status_converter status false = .error .invalid) :
    archive_patch ark status amid = ⟨.validationError, ark, []⟩ := by
  unfold archive_patch validate_status
  rw [h]
  simp

/-- Witness for C6: the unrecognized status string `"BOGUS"` is rejected and
the record is unmodified. -/
theorem C6_invalid_status_rejected_witness :
    archive_patch ark0 "BOGUS" "X1" = ⟨.validationError, ark0, []⟩ :=
  C6_invalid_status_rejected ark0 "BOGUS" "X1" (by rfl)

/-- C1: counterexample to the claim as stated. A cached `WAITING` record
whose transfer poll reports `"COMPLETE"` with package id `"P1"` and whose
subsequent AIP poll reports `"PROCESSING"` (AIP-stage conversion:
`PROCESSING_AIP`) does end with status `PROCESSING_AIP` and
`archivematica_id = "P1"`, but the Dispatcher is invoked exactly once (for
the pivot), not twice: the AIP-polled status equals the just-persisted one,
so no second invocation happens. -/
theorem C1_counterexample :
    (archive_get cfg0 ark0 true trC arP).record.status
        = ArchiveStatus.PROCESSING_AIP ∧
    (archive_get cfg0 ark0 true trC arP).record.archivematica_id = "P1" ∧
    (archive_get cfg0 ark0 true trC arP).dispatches.length = 1 ∧
    ¬ (archive_get cfg0 ark0 true trC arP).dispatches.length = 2 := by
  decide

/-- C1 (amended): given cached status `WAITING`, a transfer poll reporting
completion with package id `P`, and a successful AIP poll converting to
`s`: the single call replaces `archivematica_id` with `P`, polls the AIP
endpoint with `P` and the same credentials, and every Dispatcher invocation
receives `P`; the Dispatcher runs exactly twice (`PROCESSING_AIP`, then
`s`) and the final status is `s` when `s ≠ PROCESSING_AIP`, and exactly
once (only `PROCESSING_AIP`) with final status `PROCESSING_AIP` when
`s = PROCESSING_AIP`. -/
theorem C1_amended_pivot (cfg : Config) (ark : ArchiveRecord)
    (tr ar : PollResponse) (s2 : ArchiveStatus)
    (h1 : ark.status = ArchiveStatus.WAITING)
    (h2 : ark.archivematica_id ≠ "")
    (h3 : tr.ok = true)
    (h4 : status_converter tr.json_status false
      = .ok (some ArchiveStatus.REGISTERED))
    (h5 : ar.ok = true)
    (h6 : status_converter ar.json_status true = .ok (some s2)) :
    (archive_get cfg ark true tr ar).record.archivematica_id
        = tr.json_sip_uuid ∧
    (archive_get cfg ark true tr ar).polls =
      [.transfer ark.archivematica_id
        ⟨cfg.dashboard_user, cfg.dashboard_api_key⟩,
       .ingest tr.json_sip_uuid
        ⟨cfg.dashboard_user, cfg.dashboard_api_key⟩] ∧
    (∀ d ∈ (archive_get cfg ark true tr ar).dispatches,
      d.archivematica_id = tr.json_sip_uuid) ∧
    (archive_get cfg ark true tr ar).dispatches.map DispatchCall.status =
      (if s2 = ArchiveStatus.PROCESSING_AIP then [ArchiveStatus.PROCESSING_AIP]
       else [ArchiveStatus.PROCESSING_AIP, s2]) ∧
    (archive_get cfg ark true tr ar).record.status =
      (if s2 = ArchiveStatus.PROCESSING_AIP then ArchiveStatus.PROCESSING_AIP
       else s2) ∧
    (archive_get cfg ark true tr ar).outcome
      = .ok (to_json (archive_get cfg ark true tr ar).record) := by
  rw [archive_get_pivot cfg ark tr ar (Or.inl h1) h2 h3 h4]
  by_cases hs : s2 = ArchiveStatus.PROCESSING_AIP
  · subst hs
    rw [aip_poll_eq _ _ _ _ _ h5 (by simpa [change_status_func] using h6)]
    simp [change_status_func, to_json]
  · rw [aip_poll_ne _ _ _ _ _ s2 h5 h6 (by simpa [change_status_func] using hs)]
    simp [change_status_func, to_json, hs]

/-- Witness for C1 (amended): the concrete pivot call whose AIP poll reports
`"COMPLETE"` (converting to `REGISTERED ≠ PROCESSING_AIP`), so the
Dispatcher runs twice and the final status is `REGISTERED`. -/
theorem C1_amended_pivot_witness :
    (archive_get cfg0 ark0 true trC arC).record.archivematica_id = "P1" ∧
    (archive_get cfg0 ark0 true trC arC).dispatches.map DispatchCall.status =
      [ArchiveStatus.PROCESSING_AIP, ArchiveStatus.REGISTERED] ∧
    (archive_get cfg0 ark0 true trC arC).record.status
      = ArchiveStatus.REGISTERED := by
  have h := C1_amended_pivot cfg0 ark0 trC arC ArchiveStatus.REGISTERED
    rfl (by decide) rfl (by rfl) rfl (by rfl)
  refine ⟨h.1, ?_, ?_⟩
  · simpa using h.2.2.2.1
  · simpa using h.2.2.2.2.1

/-- C3: counterexample to the claim as stated. In the call where the
transfer poll pivots (reporting completion with package id `"P1"`) and the
subsequent AIP poll fails with HTTP 500, the failure is relayed as claimed,
but the record HAS been mutated by the call: the pivot's status change and
identifier replacement were already dispatched and persisted. -/
theorem C3_counterexample :
    (archive_get cfg0 ark0 true trC rsp500).outcome = .errRelay 500 ∧
    ¬ (archive_get cfg0 ark0 true trC rsp500).record = ark0 ∧
    ¬ (archive_get cfg0 ark0 true trC rsp500).dispatches = [] := by
  decide

/-- C3 (amended): a failed poll is propagated to the caller as the
upstream's status code with an empty JSON body. When the transfer poll
fails, the record is not mutated and nothing is dispatched; but when the
AIP poll fails after the transfer→AIP pivot in the same call, the pivot's
mutations (status `PROCESSING_AIP`, identifier replaced by the package id)
survive — only the part of the call after the failing poll is abandoned. -/
theorem C3_amended_poll_failure (cfg : Config) (ark : ArchiveRecord)
    (tr ar : PollResponse)
    (h1 : ark.status = ArchiveStatus.WAITING
      ∨ ark.status = ArchiveStatus.PROCESSING_TRANSFER)
    (h2 : ark.archivematica_id ≠ "") :
    (tr.ok = false →
      archive_get cfg ark true tr ar =
        ⟨.errRelay tr.status_code, ark, [],
          [.transfer ark.archivematica_id
            ⟨cfg.dashboard_user, cfg.dashboard_api_key⟩]⟩) ∧
    (tr.ok = true →
      status_converter tr.json_status false
        = .ok (some ArchiveStatus.REGISTERED) →
      ar.ok = false →
      archive_get cfg ark true tr ar =
        ⟨.errRelay ar.status_code,
          change_status_func { ark with archivematica_id := tr.json_sip_uuid }
            ArchiveStatus.PROCESSING_AIP,
          [⟨ArchiveStatus.PROCESSING_AIP, ark.sip, ark.accession_id,
            tr.json_sip_uuid⟩],
          [.transfer ark.archivematica_id
            ⟨cfg.dashboard_user, cfg.dashboard_api_key⟩,
           .ingest tr.json_sip_uuid
            ⟨cfg.dashboard_user, cfg.dashboard_api_key⟩]⟩) := by
  constructor
  · intro h3
    exact archive_get_transfer_fail cfg ark tr ar h1 h2 h3
  · intro h3 h4 h5
    rw [archive_get_pivot cfg ark tr ar h1 h2 h3 h4]
    rw [aip_poll_fail _ _ _ _ _ h5]
    simp [change_status_func]

/-- Witness for C3 (amended): the transfer poll failing with HTTP 500 on the
concrete `WAITING` record relays 500 and leaves the record untouched. -/
theorem C3_amended_poll_failure_witness :
    archive_get cfg0 ark0 true rsp500 arP =
      ⟨.errRelay 500, ark0, [],
        [.transfer "T1" ⟨"u", "k"⟩]⟩ :=
  (C3_amended_poll_failure cfg0 ark0 rsp500 arP (Or.inl rfl) (by decide)).1 rfl

/-- C4: reconciliation never invokes the Dispatcher for a poll whose
converted status equals the record's cached status at the comparison, and
that poll changes nothing. First conjunct: a transfer poll converting to
the cached status returns the record unchanged with no dispatch. Second
conjunct: after the transfer→AIP pivot, an AIP poll converting to the
now-cached `PROCESSING_AIP` adds no dispatch beyond the pivot's single one
and leaves the record exactly as the pivot left it. -/
theorem C4_no_dispatch_on_equal_status (cfg : Config) (ark : ArchiveRecord)
    (tr ar : PollResponse) :
    ((ark.status = ArchiveStatus.WAITING
        ∨ ark.status = ArchiveStatus.PROCESSING_TRANSFER) →
      ark.archivematica_id ≠ "" → tr.ok = true →
      status_converter tr.json_status false = .ok (some ark.status) →
      archive_get cfg ark true tr ar =
        ⟨.ok (to_json ark), ark, [],
          [.transfer ark.archivematica_id
            ⟨cfg.dashboard_user, cfg.dashboard_api_key⟩]⟩) ∧
    ((ark.status = ArchiveStatus.WAITING
        ∨ ark.status = ArchiveStatus.PROCESSING_TRANSFER) →
      ark.archivematica_id ≠ "" → tr.ok = true →
      status_converter tr.json_status false
        = .ok (some ArchiveStatus.REGISTERED) →
      ar.ok = true →
      status_converter ar.json_status true
        = .ok (some ArchiveStatus.PROCESSING_AIP) →
      (archive_get cfg ark true tr ar).record =
        change_status_func { ark with archivematica_id := tr.json_sip_uuid }
          ArchiveStatus.PROCESSING_AIP ∧
      (archive_get cfg ark true tr ar).dispatches =
        [⟨ArchiveStatus.PROCESSING_AIP, ark.sip, ark.accession_id,
          tr.json_sip_uuid⟩] ∧
      (archive_get cfg ark true tr ar).outcome
        = .ok (to_json (archive_get cfg ark true tr ar).record)) := by
  constructor
  · intro h1 h2 h3 h4
    exact archive_get_transfer_eq cfg ark tr ar h1 h2 h3 h4
  · intro h1 h2 h3 h4 h5 h6
    rw [archive_get_pivot cfg ark tr ar h1 h2 h3 h4]
    rw [aip_poll_eq _ _ _ _ _ h5 (by simpa [change_status_func] using h6)]
    simp [change_status_func]

/-- Witness for C4: a cached `WAITING` record whose transfer poll reports
`"WAITING"` again is returned unchanged, with the poll made but no
Dispatcher invocation. -/
theorem C4_no_dispatch_on_equal_status_witness :
    archive_get cfg0 ark0 true ⟨true, 200, "WAITING", ""⟩ arP =
      ⟨.ok (to_json ark0), ark0, [], [.transfer "T1" ⟨"u", "k"⟩]⟩ :=
  (C4_no_dispatch_on_equal_status cfg0 ark0 ⟨true, 200, "WAITING", ""⟩ arP).1
    (Or.inl rfl) (by decide) rfl (by rfl)

/-- C7: the write path is idempotent — a second PATCH with the same status
string and the same external identifier never invokes the Dispatcher a
second time and leaves the record unchanged. -/
theorem C7_patch_idempotent (ark : ArchiveRecord) (status amid : String) :
    (archive_patch (archive_patch ark status amid).record status amid).record
      = (archive_patch ark status amid).record ∧
    (archive_patch (archive_patch ark status amid).record status amid).dispatches
      = [] := by
  rcases hco : status_converter status false with e | os
  · cases e
    simp [archive_patch_invalid _ _ _ hco]
  · rcases os with _ | st
    · simp [archive_patch_ok_none _ _ _ hco, patch_id_update_idem]
    · rw [archive_patch_ok_some ark status amid st hco]
      by_cases hst : st = (patch_id_update ark amid).status
      · rw [if_pos hst]
        dsimp only
        rw [archive_patch_ok_some (patch_id_update ark amid) status amid st hco,
          patch_id_update_idem, if_pos hst]
        exact ⟨rfl, rfl⟩
      · rw [if_neg hst]
        dsimp only
        rw [archive_patch_ok_some
            (change_status_func (patch_id_update ark amid) st) status amid st hco,
          patch_id_update_of_change,
          if_pos (change_status_func_status (patch_id_update ark amid) st).symm]
        exact ⟨rfl, rfl⟩

/-- C8: a PATCH passing validation and supplying a different non-empty
external identifier replaces the identifier; every Dispatcher invocation in
the same call receives the just-updated identifier, and the resulting
snapshot is returned. -/
theorem C8_identifier_replacement (ark : ArchiveRecord) (status amid : String)
    (h1 : amid ≠ "") (h2 : amid ≠ ark.archivematica_id)
    (h3 : validate_status status = true) :
    (archive_patch ark status amid).record.archivematica_id = amid ∧
    (∀ d ∈ (archive_patch ark status amid).dispatches,
      d.archivematica_id = amid) ∧
    (archive_patch ark status amid).outcome
      = .ok (to_json (archive_patch ark status amid).record) := by
  have hu : patch_id_update ark amid = { ark with archivematica_id := amid } := by
    unfold patch_id_update
    rw [if_pos ⟨h1, h2⟩]
  rcases hco : status_converter status false with e | os
  · exfalso
    unfold validate_status at h3
    rw [hco] at h3
    simp at h3
  · rcases os with _ | st
    · simp [archive_patch_ok_none _ _ _ hco, hu]
    · rw [archive_patch_ok_some ark status amid st hco, hu]
      by_cases hst : st = ark.status
      · simp [hst]
      · simp [hst, change_status_func]

/-- Witness for C8: patching status `"FAILED"` and a new identifier `"X1"`
onto the `WAITING` record replaces the identifier, dispatches `FAILED` with
the new identifier, and returns the updated snapshot. -/
theorem C8_identifier_replacement_witness :
    (archive_patch ark0 "FAILED" "X1").record.archivematica_id = "X1" ∧
    (∀ d ∈ (archive_patch ark0 "FAILED" "X1").dispatches,
      d.archivematica_id = "X1") ∧
    (archive_patch ark0 "FAILED" "X1").outcome
      = .ok (to_json (archive_patch ark0 "FAILED" "X1").record) :=
  C8_identifier_replacement ark0 "FAILED" "X1" (by decide) (by decide) (by rfl)

/-- C10: the download path carries no per-accession permission guard — for
any authenticated caller holding the archive scope it never aborts 403,
regardless of which permissions are granted — while the read and write
paths guard their handlers with the `archive-read` and `archive-write`
permission checks and abort 403 when those are denied. -/
theorem C10_download_no_permission_check (ctx : RequestCtx)
    (h1 : ctx.authed = true) (h2 : ctx.has_scope = true) :
    run_guards ctx archive_download_guards ≠ some 403 ∧
    (∀ a : String, Guard.permission a ∉ archive_download_guards) ∧
    (ctx.found = true → run_guards ctx archive_download_guards = none) ∧
    (ctx.found = true → ctx.granted "archive-read" = false →
      run_guards ctx archive_get_guards = some 403) ∧
    (ctx.found = true → ctx.granted "archive-write" = false →
      run_guards ctx archive_patch_guards = some 403) := by
  refine ⟨?_, ?_, ?_, ?_, ?_⟩
  · cases hf : ctx.found <;>
      simp [run_guards, archive_download_guards, guard_abort, h1, h2, hf]
  · intro a
    simp [archive_download_guards]
  · intro hf
    simp [run_guards, archive_download_guards, guard_abort, h1, h2, hf]
  · intro hf hg
    simp [run_guards, archive_get_guards, guard_abort, h1, h2, hf, hg]
  · intro hf hg
    simp [run_guards, archive_patch_guards, guard_abort, h1, h2, hf, hg]

/-- Witness for C10: a found accession, an authenticated and scoped caller
granted no permission at all — the download chain reaches the handler while
the status-read chain aborts 403. -/
theorem C10_download_no_permission_check_witness :
    run_guards ⟨true, true, true, fun _ => false⟩ archive_download_guards
      = none ∧
    run_guards ⟨true, true, true, fun _ => false⟩ archive_get_guards
      = some 403 :=
  ⟨(C10_download_no_permission_check ⟨true, true, true, fun _ => false⟩
      rfl rfl).2.2.1 rfl,
   (C10_download_no_permission_check ⟨true, true, true, fun _ => false⟩
      rfl rfl).2.2.2.1 rfl rfl⟩

end InvenioArchivematica
